import Mathlib

/-!
Shallow embedding of the ysfrando/SYN storage node core: the master-key
manager (src/crypto/crypto_manager.py), the orchestrator configuration
loader and lifecycle (src/storage/storage.py), and the two periodic
maintenance loops.  Python exceptions are modelled as `Except` values,
the filesystem as an association list from path to contents, and the
injectable failures of the OS calls as an explicit environment record.
-/

namespace SYN

/-- Python exception values raised by the embedded code.  `AttributeError`
is what Python raises when an instance attribute is accessed before it has
been assigned. -/
inductive PyError where
  | attributeError (msg : String)
  | valueError (msg : String)
  | osError (msg : String)
  | fileNotFoundError (msg : String)
  | typeError (msg : String)
deriving DecidableEq, Repr

/-- File contents, a list of bytes. -/
abbrev Bytes := List Nat

/-- A flat filesystem: an association list from path to file contents. -/
structure FS where
  files : List (String × Bytes)
deriving DecidableEq, Repr

/-- Reading a file: the first entry for the path, if any. -/
def FS.read (fs : FS) (p : String) : Option Bytes :=
  (fs.files.find? (fun e => e.1 == p)).map (fun e => e.2)

/-- Writing (creating or replacing) a file. -/
def FS.write (fs : FS) (p : String) (b : Bytes) : FS :=
  ⟨(p, b) :: fs.files.filter (fun e => e.1 != p)⟩

/-- Unlinking a file (a no-op when the path is absent). -/
def FS.remove (fs : FS) (p : String) : FS :=
  ⟨fs.files.filter (fun e => e.1 != p)⟩

/-- The message of the AttributeError raised when `self.logger` is read
before `__init__` has assigned it (crypto_manager.py line 15 runs after
line 13). -/
def noLoggerMsg : String := "CryptoManager object has no attribute logger"

/-- A call on `self.logger`: succeeds when the attribute has been
assigned, otherwise raises AttributeError.  In `CryptoManager.__init__`
(crypto_manager.py lines 11-15) `self.logger` is assigned only after
`_load_or_create_master_key` has returned, so during that call
`loggerSet = false`. -/
def loggerCall (loggerSet : Bool) : Except PyError Unit :=
  if loggerSet then .ok () else .error (.attributeError noLoggerMsg)

/-- `os.path.abspath(os.path.normpath(path))` of crypto_manager.py line 29,
modelled as the identity: paths in the model are taken to be already
canonical (normalization does not affect any claim). -/
def normalizePath (p : String) : String := p

/-- Injectable outcomes of the OS calls made by `_load_or_create_master_key`:
whether `os.path.exists(key_dir)` holds, and whether `os.makedirs`,
`os.open`, `f.write` and `os.rename` raise `OSError`.  (`os.open` with
`O_EXCL` additionally fails deterministically when the temp path already
exists.) -/
structure IOEnv where
  dirExists : Bool
  makedirsFails : Bool
  openFails : Bool
  writeFails : Bool
  renameFails : Bool
deriving DecidableEq, Repr

/-- The temp path of crypto_manager.py line 59:
`f"{key_path}.{os.getpid()}.tmp"`. -/
def tempPathOf (p : String) (pid : Nat) : String :=
  normalizePath p ++ "." ++ toString pid ++ ".tmp"

/-- The `except OSError` handler of crypto_manager.py lines 77-82:
`self.logger.error(...)` runs first (raising AttributeError when the
logger attribute is unset, in which case the cleanup below never runs),
then the temp file is unlinked if it exists, then the OSError is
re-raised. -/
def cleanupAndRaise (loggerSet : Bool) (tempPath : String) (e : PyError)
    (fs : FS) : Except PyError Bytes × FS :=
  match loggerCall loggerSet with
  | .error a => (.error a, fs)
  | .ok _ =>
    let fs1 := if (fs.read tempPath).isSome then fs.remove tempPath else fs
    (.error e, fs1)

/-- `CryptoManager._load_or_create_master_key` (crypto_manager.py lines
17-82).  `loggerSet` records whether `self.logger` has been assigned at
call time; `freshKey` stands for the bytes produced by
`secrets.token_bytes(32)`; `pid` is `os.getpid()`; `env` gives the
outcomes of the fallible OS calls.  Returns the Python result (key bytes
or raised exception) together with the filesystem after the call. -/
def load_or_create_master_key (loggerSet : Bool) (masterKeyPath : String)
    (freshKey : Bytes) (pid : Nat) (env : IOEnv) (fs : FS) :
    Except PyError Bytes × FS :=
  let keyPath := normalizePath masterKeyPath
  match fs.read keyPath with
  | some key =>
    -- `if not key or len(key) != 32` (line 36)
    if key = [] ∨ key.length ≠ 32 then
      -- line 37: `self.logger.error(...)` precedes the ValueError of line 38
      match loggerCall loggerSet with
      | .error a => (.error a, fs)
      | .ok _ => (.error (.valueError "Master key has invalid length or is empty"), fs)
    else
      (.ok key, fs)
  | none =>
    -- `except FileNotFoundError` branch; line 43: `self.logger.warning(...)`
    match loggerCall loggerSet with
    | .error a => (.error a, fs)
    | .ok _ =>
      -- line 46: key = secrets.token_bytes(32), modelled by `freshKey`
      -- lines 50-56: guarded `os.makedirs(key_dir, mode=0o600, exist_ok=True)`
      if !env.dirExists && env.makedirsFails then
        match loggerCall loggerSet with
        | .error a => (.error a, fs)
        | .ok _ => (.error (.osError "Could not create key directory"), fs)
      else
        let tempPath := tempPathOf masterKeyPath pid
        -- line 62: os.open(temp_path, O_WRONLY|O_CREAT|O_EXCL, 0o600)
        if env.openFails || (fs.read tempPath).isSome then
          cleanupAndRaise loggerSet tempPath (.osError "Cound not create master key file") fs
        else
          -- the temp file now exists (created empty, owner-only mode)
          let fs1 := fs.write tempPath []
          -- lines 64-69: f.write(key); any failure reaches the outer handler
          if env.writeFails then
            cleanupAndRaise loggerSet tempPath (.osError "Cound not create master key file") fs1
          else
            let fs2 := fs1.write tempPath freshKey
            -- line 72: os.rename(temp_path, key_path), the atomic commit
            if env.renameFails then
              cleanupAndRaise loggerSet tempPath (.osError "Cound not create master key file") fs2
            else
              let fs3 := (fs2.remove tempPath).write keyPath freshKey
              -- line 74: `self.logger.info(...)` runs after the rename
              match loggerCall loggerSet with
              | .error a => (.error a, fs3)
              | .ok _ => (.ok freshKey, fs3)

/-- The fields of a constructed `CryptoManager` (crypto_manager.py
lines 11-15). -/
structure CryptoManagerState where
  master_key_path : String
  master_key : Bytes
  file_keys : List (String × Bytes)
  loggerSet : Bool
deriving DecidableEq, Repr

/-- `CryptoManager.__init__` (crypto_manager.py lines 11-15): assigns
`master_key_path`, then calls `_load_or_create_master_key` while
`self.logger` is still unassigned (hence `loggerSet := false`), and only
afterwards assigns `file_keys` and `logger`. -/
def CryptoManager_init (path : String) (freshKey : Bytes) (pid : Nat)
    (env : IOEnv) (fs : FS) : Except PyError CryptoManagerState × FS :=
  match load_or_create_master_key false path freshKey pid env fs with
  | (.error e, fs1) => (.error e, fs1)
  | (.ok key, fs1) => (.ok ⟨path, key, [], true⟩, fs1)

/-- Modelled from the spec: `getOrCreateFileKey` is not implemented under
src/ — crypto_manager.py line 14 only declares the `file_keys` map
(file_id to key bytes).  Per the spec (section 4.1): if a key for the
identifier already exists in the in-memory map, return it unchanged;
otherwise generate a new per-file key (the fresh random draw is passed as
`freshKey`), store it, and return it. -/
def get_or_create_file_key (fileKeys : List (String × Bytes))
    (fileId : String) (freshKey : Bytes) : Bytes × List (String × Bytes) :=
  match (fileKeys.find? (fun e => e.1 == fileId)).map (fun e => e.2) with
  | some k => (k, fileKeys)
  | none => (freshKey, (fileId, freshKey) :: fileKeys)

/-- A JSON scalar value as it appears in the configuration record. -/
inductive ConfigVal where
  | vstr (s : String)
  | vnat (n : Nat)
  | vbool (b : Bool)
deriving DecidableEq, Repr

/-- A parsed configuration record: field name to value. -/
abbrev ConfigRecord := List (String × ConfigVal)

/-- A Python object handed to `json.loads`.  JSON text is modelled at the
granularity of the record it parses to: `strObj r` is a string whose parse
is `r`; `fileHandle r` is an open file object whose contents would parse
to `r`. -/
inductive PyObj where
  | strObj (r : ConfigRecord)
  | fileHandle (r : ConfigRecord)
deriving DecidableEq, Repr

/-- `json.loads`: parses a string; raises TypeError on any non-string
argument such as an open file object. -/
def json_loads : PyObj → Except PyError ConfigRecord
  | .strObj r => .ok r
  | .fileHandle _ =>
    .error (.typeError "the JSON object must be str, bytes or bytearray, not TextIOWrapper")

/-- The required configuration fields of storage.py lines 36-40. -/
def required_fields : List String :=
  ["master_key_path", "nodes_db_path", "local_storage_path",
   "replication_factor", "use_tor"]

/-- Field lookup in a configuration record (`field in config` /
`config[field]`). -/
def lookupField (r : ConfigRecord) (k : String) : Option ConfigVal :=
  (r.find? (fun e => e.1 == k)).map (fun e => e.2)

/-- The validation loop of storage.py lines 42-44: raise ValueError naming
the first required field absent from the record. -/
def validate_required (r : ConfigRecord) : Except PyError ConfigRecord :=
  match required_fields.find? (fun fld => (lookupField r fld).isNone) with
  | some fld => .error (.valueError ("Missing required config field: " ++ fld))
  | none => .ok r

/-- The default configuration of storage.py lines 49-56. -/
def default_config : ConfigRecord :=
  [("master_key_path", .vstr "master.key"),
   ("nodes_db_path", .vstr "nodes.db"),
   ("local_storage_path", .vstr "local_storage"),
   ("replication_factor", .vnat 3),
   ("use_tor", .vbool true),
   ("chunk_size", .vnat (4 * 1024 * 1024))]

/-- A filesystem of configuration files, stored in parsed form. -/
structure CFS where
  files : List (String × ConfigRecord)
deriving DecidableEq, Repr

/-- Reading a configuration file. -/
def CFS.read (fs : CFS) (p : String) : Option ConfigRecord :=
  (fs.files.find? (fun e => e.1 == p)).map (fun e => e.2)

/-- Writing a configuration file. -/
def CFS.write (fs : CFS) (p : String) (r : ConfigRecord) : CFS :=
  ⟨(p, r) :: fs.files.filter (fun e => e.1 != p)⟩

/-- The characters strictly before the last path separator, if the list
contains one. -/
def beforeLastSlash : List Char → Option (List Char)
  | [] => none
  | c :: rest =>
    match beforeLastSlash rest with
    | some tail => some (c :: tail)
    | none => if c = '/' then some [] else none

/-- `os.path.dirname`, modelled on separator-free and relative paths:
everything before the last separator, or the empty string when the path
has no separator (so `dirname "config.json" = ""`, exactly as in
Python). -/
def dirname (p : String) : String :=
  match beforeLastSlash p.data with
  | some pre => String.mk pre
  | none => ""

/-- `SecureStorage._load_config` (storage.py lines 30-62).  If the file
exists, the code runs `config = json.loads(f)` on the open file object
`f` (line 33) — not on its text — and any resulting exception is not
caught (`except FileNotFoundError` is the only handler).  If the file
does not exist, the code builds `default_config`, runs
`os.makedirs(os.path.dirname(config_path), exist_ok=True)` — which raises
FileNotFoundError when the dirname is empty, since `os.mkdir("")` fails
with ENOENT and `exist_ok` only forgives an existing directory — then
writes the default record to the path and returns it. -/
def load_config (fs : CFS) (configPath : String) :
    Except PyError ConfigRecord × CFS :=
  match fs.read configPath with
  | some contents =>
    match json_loads (.fileHandle contents) with
    | .error e => (.error e, fs)
    | .ok config =>
      match validate_required config with
      | .error e => (.error e, fs)
      | .ok config => (.ok config, fs)
  | none =>
    if dirname configPath = "" then
      (.error (.fileNotFoundError "No such file or directory"), fs)
    else
      (.ok default_config, fs.write configPath default_config)

/-- Observable orchestrator actions, in program order: setting the
`running` flag, the collaborator lifecycle calls of storage.py lines
70-71 and 85-86, and the two `asyncio.create_task` spawns of lines
74-75. -/
inductive OrchEvent where
  | setRunning (b : Bool)
  | initNode
  | initFile
  | shutdownNode
  | shutdownFile
  | spawnHealthCheck
  | spawnRebalance
deriving DecidableEq, Repr

/-- The orchestrator state consulted by the periodic loops: the `running`
flag of storage.py line 28. -/
structure OrchState where
  running : Bool
deriving DecidableEq, Repr

/-- `SecureStorage.start` (storage.py lines 64-77): sets
`self.running = True` (line 67) before initializing the collaborators,
then awaits `node_manager.initialize()` then `file_manager.initialize()`;
an exception from either propagates (nothing catches it) and the
already-set flag is left as is; on success the two periodic tasks are
spawned.  `nodeInit` and `fileInit` are the collaborator outcomes; the
result lists the events that actually ran, in order. -/
def start (nodeInit fileInit : Except String Unit) (_s : OrchState) :
    Except String Unit × OrchState × List OrchEvent :=
  match nodeInit with
  | .error e => (.error e, ⟨true⟩, [.setRunning true, .initNode])
  | .ok _ =>
    match fileInit with
    | .error e => (.error e, ⟨true⟩, [.setRunning true, .initNode, .initFile])
    | .ok _ =>
      (.ok (), ⟨true⟩,
       [.setRunning true, .initNode, .initFile, .spawnHealthCheck, .spawnRebalance])

/-- `SecureStorage.stop` (storage.py lines 79-88): sets
`self.running = False` (line 82), then awaits `node_manager.shutdown()`
(line 85) and then `file_manager.shutdown()` (line 86) — the same order
as initialization, not the reverse. -/
def stop (_s : OrchState) : OrchState × List OrchEvent :=
  (⟨false⟩, [.setRunning false, .shutdownNode, .shutdownFile])

/-- Whether some occurrence of `a` strictly precedes some occurrence of
`b` in the event list. -/
def occursBefore (a b : OrchEvent) : List OrchEvent → Bool
  | [] => false
  | e :: rest =>
    (decide (e = a) && rest.any (fun x => decide (x = b))) || occursBefore a b rest

/-- Observable actions of one periodic-loop run: the debug log, the
collaborator call, an error logged by the `except` handler, and the
`asyncio.sleep` with its period in seconds. -/
inductive LoopEvent where
  | logDebug
  | collaboratorCall
  | logError (msg : String)
  | sleepFor (secs : Nat)
deriving DecidableEq, Repr

/-- One periodic loop (`while self.running: try: debug; await call
except Exception as e: error(e); await asyncio.sleep(period)`), driven by
a stream of (flag read by `while self.running`, collaborator outcome)
pairs.  A false flag ends the loop; an erroring call is logged and the
loop continues with the rest of the stream. -/
def loopBody (period : Nat) : List (Bool × Except String Unit) → List LoopEvent
  | [] => []
  | (flag, res) :: rest =>
    if flag then
      [.logDebug, .collaboratorCall]
        ++ (match res with | .ok _ => [] | .error m => [.logError m])
        ++ [.sleepFor period] ++ loopBody period rest
    else []

/-- `SecureStorage._periodic_health_check` (storage.py lines 90-99):
period 300 seconds, invoking `node_manager.check_nodes_health()`. -/
def periodic_health_check : List (Bool × Except String Unit) → List LoopEvent :=
  loopBody 300

/-- `SecureStorage._periodic_rebalance` (storage.py lines 101-110):
period 3600 seconds, invoking `file_manager.rebalance_data()`. -/
def periodic_rebalance : List (Bool × Except String Unit) → List LoopEvent :=
  loopBody 3600

/-- Recognizer for the collaborator call event. -/
def isCall : LoopEvent → Bool
  | .collaboratorCall => true
  | _ => false

/-- The number of collaborator invocations a loop run performed. -/
def callCount (evs : List LoopEvent) : Nat := evs.countP isCall

/-- An environment in which every OS call succeeds and the key directory
already exists. -/
def envOk : IOEnv := ⟨true, false, false, false, false⟩

/-- An environment in which `f.write` on the temp file raises `OSError`
(for instance, the disk filling up mid-write). -/
def envWriteFail : IOEnv := ⟨true, false, false, true, false⟩

/-- A well-formed 32-byte master key used as the concrete random draw in
evaluations. -/
def key32 : Bytes := List.replicate 32 7

/-- A configuration record with every required field except
`replication_factor`. -/
def configMissingReplication : ConfigRecord :=
  [("master_key_path", .vstr "master.key"),
   ("nodes_db_path", .vstr "nodes.db"),
   ("local_storage_path", .vstr "local_storage"),
   ("use_tor", .vbool true)]

theorem find?_filter_ne (p q : String) (h : q ≠ p) :
    ∀ l : List (String × Bytes),
      (l.filter (fun e => e.1 != p)).find? (fun e => e.1 == q)
        = l.find? (fun e => e.1 == q)
  | [] => rfl
  | a :: t => by
    have h' : p ≠ q := Ne.symm h
    by_cases hap : a.1 = p
    · simp [List.filter_cons, hap, List.find?_cons, h', find?_filter_ne p q h t]
    · by_cases haq : a.1 = q
      · simp [List.filter_cons, hap, List.find?_cons, haq, h]
      · simp [List.filter_cons, hap, List.find?_cons, haq, find?_filter_ne p q h t]

theorem FS.read_write_self (fs : FS) (p : String) (b : Bytes) :
    (fs.write p b).read p = some b := by
  simp [FS.read, FS.write, List.find?_cons]

theorem FS.read_write_ne (fs : FS) (p q : String) (b : Bytes) (h : q ≠ p) :
    (fs.write p b).read q = fs.read q := by
  have h' : p ≠ q := Ne.symm h
  simp [FS.read, FS.write, List.find?_cons, h', find?_filter_ne p q h fs.files]

theorem FS.read_remove_self (fs : FS) (p : String) : (fs.remove p).read p = none := by
  simp [FS.read, FS.remove, List.find?_eq_none]

theorem normalize_ne_tempPath (p : String) (pid : Nat) :
    normalizePath p ≠ tempPathOf p pid := by
  intro h
  have hl := congrArg String.length h
  have h1 : ".".length = 1 := rfl
  have h4 : ".tmp".length = 4 := rfl
  simp [normalizePath, tempPathOf, String.length_append, h1, h4] at hl
  omega

theorem callCount_loopBody (p : Nat) :
    ∀ steps : List (Bool × Except String Unit),
      callCount (loopBody p steps) = (steps.takeWhile (fun x => x.1)).length
  | [] => rfl
  | (flag, res) :: rest => by
    cases flag
    · simp [loopBody, List.takeWhile_cons, callCount]
    · have ih := callCount_loopBody p rest
      simp only [callCount] at ih
      cases res with
      | ok u =>
        simp [loopBody, List.takeWhile_cons, callCount, List.countP_append,
              List.countP_cons, isCall, ih]
      | error m =>
        simp [loopBody, List.takeWhile_cons, callCount, List.countP_append,
              List.countP_cons, isCall, ih]

/-- Claim C1: with a master-key file present whose contents are 3 bytes
(neither empty nor 32 bytes), constructing the CryptoManager raises
`AttributeError` at `self.logger.error` — the logger attribute is not yet
assigned — rather than the documented `ValueError` (the CorruptKeyError
of the spec); the file on disk is unchanged either way.  Were the logger
attribute assigned, the same call would raise the documented `ValueError`
and still leave the file unchanged, as the second conjunct shows. -/
theorem C1_corrupt_key_eval :
    CryptoManager_init "master.key" key32 0 envOk ⟨[("master.key", [1, 2, 3])]⟩
      = (Except.error (PyError.attributeError noLoggerMsg),
         ⟨[("master.key", [1, 2, 3])]⟩)
    ∧ load_or_create_master_key true "master.key" key32 0 envOk
        ⟨[("master.key", [1, 2, 3])]⟩
      = (Except.error (PyError.valueError "Master key has invalid length or is empty"),
         ⟨[("master.key", [1, 2, 3])]⟩) :=
  ⟨rfl, rfl⟩

/-- Claim C2: with no file at the master-key path, constructing the
CryptoManager raises `AttributeError` at `self.logger.warning` before any
key is generated or any file is written (the filesystem is returned
unchanged), rather than creating a 32-byte key file and returning its
bytes.  Were the logger attribute assigned, the same call would create
exactly the fresh 32 bytes at the final path and return them, as the
second conjunct shows. -/
theorem C2_missing_key_eval :
    CryptoManager_init "master.key" key32 0 envOk ⟨[]⟩
      = (Except.error (PyError.attributeError noLoggerMsg), ⟨[]⟩)
    ∧ load_or_create_master_key true "master.key" key32 0 envOk ⟨[]⟩
      = (Except.ok key32, ⟨[("master.key", key32)]⟩) :=
  ⟨rfl, rfl⟩

/-- Claim C3: runs of `_load_or_create_master_key` never leave the temp
file behind — whatever the logger state, the OS-call outcomes and the
prior filesystem (given the temp path started absent), the resulting
filesystem has nothing at the temp path — and when the key file is absent
and the temp-file creation (`os.open`) or the key write (`f.write`)
fails, the call propagates a raised exception rather than succeeding. -/
theorem C3_temp_cleanup (loggerSet : Bool) (path : String) (key : Bytes)
    (pid : Nat) (env : IOEnv) (fs : FS)
    (h1 : fs.read (tempPathOf path pid) = none) :
    ((load_or_create_master_key loggerSet path key pid env fs).2).read
        (tempPathOf path pid) = none
    ∧ (fs.read (normalizePath path) = none →
        (env.openFails = true ∨ env.writeFails = true) →
        ∃ e, (load_or_create_master_key loggerSet path key pid env fs).1
          = Except.error e) := by
  have htn : tempPathOf path pid ≠ normalizePath path :=
    Ne.symm (normalize_ne_tempPath path pid)
  rcases env with ⟨d, m, o, w, r⟩
  cases hr : fs.read (normalizePath path) with
  | some k =>
      by_cases hk : k = [] ∨ k.length ≠ 32
      · cases loggerSet <;>
          simp [load_or_create_master_key, hr, hk, loggerCall, h1]
      · simp [load_or_create_master_key, hr, hk, loggerCall, h1]
  | none =>
      cases loggerSet
      · simp [load_or_create_master_key, hr, loggerCall, h1]
      · cases d <;> cases m <;> cases o <;> cases w <;> cases r <;>
          simp [load_or_create_master_key, hr, loggerCall, cleanupAndRaise, h1, htn,
                FS.read_write_self, FS.read_remove_self, FS.read_write_ne]

/-- Claim C3, witnessed at a concrete input: logger assigned, empty
filesystem, `f.write` failing; the temp path ends absent and the call
propagates an error. -/
theorem C3_temp_cleanup_witness :
    ((load_or_create_master_key true "master.key" key32 0 envWriteFail ⟨[]⟩).2).read
        (tempPathOf "master.key" 0) = none
    ∧ ((FS.mk []).read (normalizePath "master.key") = none →
        (envWriteFail.openFails = true ∨ envWriteFail.writeFails = true) →
        ∃ e, (load_or_create_master_key true "master.key" key32 0
          envWriteFail ⟨[]⟩).1 = Except.error e) :=
  C3_temp_cleanup true "master.key" key32 0 envWriteFail ⟨[]⟩ rfl

/-- Claim C4 (the operation modelled from the spec, see
`get_or_create_file_key`): a second call with the same identifier returns
the key stored by the first call and leaves the map unchanged; and from
an empty map, two calls with different identifiers whose fresh random
draws differ return different keys. -/
theorem C4_file_key_cache (m : List (String × Bytes)) (fid : String)
    (f1 f2 : Bytes) (id1 id2 : String) (g1 g2 : Bytes)
    (hid : id1 ≠ id2) (hg : g1 ≠ g2) :
    (get_or_create_file_key (get_or_create_file_key m fid f1).2 fid f2).1
        = (get_or_create_file_key m fid f1).1
    ∧ (get_or_create_file_key (get_or_create_file_key m fid f1).2 fid f2).2
        = (get_or_create_file_key m fid f1).2
    ∧ (get_or_create_file_key (get_or_create_file_key [] id1 g1).2 id2 g2).1
        ≠ (get_or_create_file_key [] id1 g1).1 := by
  have hid' : (id1 == id2) = false := by simp [hid]
  refine ⟨?_, ?_, ?_⟩
  · cases hf : (m.find? (fun e => e.1 == fid)) with
    | none => simp [get_or_create_file_key, hf, List.find?_cons]
    | some a => simp [get_or_create_file_key, hf]
  · cases hf : (m.find? (fun e => e.1 == fid)) with
    | none => simp [get_or_create_file_key, hf, List.find?_cons]
    | some a => simp [get_or_create_file_key, hf]
  · simp [get_or_create_file_key, List.find?_cons, hid']
    exact Ne.symm hg

/-- Claim C4, witnessed at concrete inputs: identifiers "a" and "b" with
distinct fresh draws. -/
theorem C4_file_key_cache_witness :
    (get_or_create_file_key (get_or_create_file_key [] "a" [1]).2 "a" [2]).1
        = (get_or_create_file_key [] "a" [1]).1
    ∧ (get_or_create_file_key (get_or_create_file_key [] "a" [1]).2 "a" [2]).2
        = (get_or_create_file_key [] "a" [1]).2
    ∧ (get_or_create_file_key (get_or_create_file_key [] "a" [1]).2 "b" [2]).1
        ≠ (get_or_create_file_key [] "a" [1]).1 :=
  C4_file_key_cache [] "a" [1] [2] "a" "b" [1] [2] (by decide) (by decide)

/-- Claim C5: with a configuration file present — here one containing every
required field — `_load_config` raises `TypeError`, because line 33 passes
the open file object to `json.loads` instead of the file text; the
validation loop is unreachable.  The second and third conjuncts show the
intended pieces do exist: `json.loads` on a string parses it, and the
validation of a record missing `replication_factor` raises `ValueError`
naming that field. -/
theorem C5_existing_config_eval :
    load_config ⟨[("config.json", default_config)]⟩ "config.json"
      = (Except.error (PyError.typeError
          "the JSON object must be str, bytes or bytearray, not TextIOWrapper"),
         ⟨[("config.json", default_config)]⟩)
    ∧ json_loads (PyObj.strObj default_config) = Except.ok default_config
    ∧ validate_required configMissingReplication
      = Except.error (PyError.valueError
          "Missing required config field: replication_factor") :=
  ⟨rfl, rfl, rfl⟩

/-- Claim C6: with no file at the default path "config.json",
`_load_config` raises `FileNotFoundError` — `os.makedirs` on the empty
dirname of a bare filename fails — instead of persisting and returning the
defaults; on a path with a directory component the defaults (replication
factor 3, use_tor true, chunk size 4 MiB, all required fields present) are
persisted and returned as claimed. -/
theorem C6_default_config_eval :
    load_config ⟨[]⟩ "config.json"
      = (Except.error (PyError.fileNotFoundError "No such file or directory"), ⟨[]⟩)
    ∧ load_config ⟨[]⟩ "etc/config.json"
      = (Except.ok default_config, ⟨[("etc/config.json", default_config)]⟩)
    ∧ lookupField default_config "replication_factor" = some (ConfigVal.vnat 3)
    ∧ lookupField default_config "use_tor" = some (ConfigVal.vbool true)
    ∧ lookupField default_config "chunk_size" = some (ConfigVal.vnat 4194304)
    ∧ validate_required default_config = Except.ok default_config :=
  ⟨rfl, rfl, rfl, rfl, rfl, rfl⟩

/-- Claim C7, counterexample: when the node directory collaborator fails
to come up, `start` propagates the failure, yet the lifecycle flag reads
`running = true` — the state did advance to Running, refuting the claim
that it does not. -/
theorem C7_running_flag_counterexample :
    (start (Except.error "node manager failed") (Except.ok ()) ⟨false⟩).1
        = Except.error "node manager failed"
    ∧ (start (Except.error "node manager failed") (Except.ok ()) ⟨false⟩).2.1.running
        = true :=
  ⟨rfl, rfl⟩

/-- Claim C7 as amended: if either collaborator fails to come up during
`start`, the failure propagates to the caller and no maintenance task is
spawned, but the `running` flag — set at entry, before the collaborator
calls — is already true, so the lifecycle state has advanced to
Running. -/
theorem C7_start_failure_amended (e e2 : String) (f : Except String Unit)
    (s s2 : OrchState) :
    (start (Except.error e) f s).1 = Except.error e
    ∧ (start (Except.error e) f s).2.1.running = true
    ∧ (start (Except.error e) f s).2.2 = [OrchEvent.setRunning true, OrchEvent.initNode]
    ∧ (start (Except.ok ()) (Except.error e2) s2).1 = Except.error e2
    ∧ (start (Except.ok ()) (Except.error e2) s2).2.1.running = true
    ∧ (start (Except.ok ()) (Except.error e2) s2).2.2
        = [OrchEvent.setRunning true, OrchEvent.initNode, OrchEvent.initFile] :=
  ⟨rfl, rfl, rfl, rfl, rfl, rfl⟩

/-- Claim C8, counterexample: in the event sequence of `stop`, no shutdown
of the file manager precedes the shutdown of the node directory — the
claimed order (file manager first, then node directory) does not occur. -/
theorem C8_shutdown_order_counterexample :
    occursBefore OrchEvent.shutdownFile OrchEvent.shutdownNode (stop ⟨true⟩).2
      = false :=
  rfl

/-- Claim C8 as amended: `stop` clears the `running` flag — the
cooperative cancellation signal for both maintenance loops — before any
shutdown call, and then invokes `shutdown` on the node directory and then
on the file manager: the same order in which `start` initializes them,
not the reverse. -/
theorem C8_stop_order_amended (s s2 : OrchState) :
    (stop s).1.running = false
    ∧ (stop s).2
        = [OrchEvent.setRunning false, OrchEvent.shutdownNode, OrchEvent.shutdownFile]
    ∧ occursBefore (OrchEvent.setRunning false) OrchEvent.shutdownNode (stop s).2 = true
    ∧ occursBefore OrchEvent.shutdownNode OrchEvent.shutdownFile (stop s).2 = true
    ∧ (start (Except.ok ()) (Except.ok ()) s2).2.2
        = [OrchEvent.setRunning true, OrchEvent.initNode, OrchEvent.initFile,
           OrchEvent.spawnHealthCheck, OrchEvent.spawnRebalance] :=
  ⟨rfl, rfl, rfl, rfl, rfl⟩

/-- Claim C9: for both periodic loops, an iteration whose collaborator
call errors logs the error and is followed by the rest of the run exactly
as if it had succeeded (the error never escapes or ends the loop); a
false `running` flag ends the loop; the health-check loop sleeps 300
seconds per iteration and the rebalance loop 3600; and the number of
collaborator invocations equals the length of the leading all-true
stretch of the flag schedule — it depends only on the flag, never on
errors. -/
theorem C9_loop_fault_isolation (m : String)
    (rest steps : List (Bool × Except String Unit)) (r : Except String Unit) :
    periodic_health_check ((true, Except.error m) :: rest)
        = [LoopEvent.logDebug, LoopEvent.collaboratorCall, LoopEvent.logError m,
           LoopEvent.sleepFor 300] ++ periodic_health_check rest
    ∧ periodic_rebalance ((true, Except.error m) :: rest)
        = [LoopEvent.logDebug, LoopEvent.collaboratorCall, LoopEvent.logError m,
           LoopEvent.sleepFor 3600] ++ periodic_rebalance rest
    ∧ periodic_health_check ((false, r) :: rest) = []
    ∧ periodic_rebalance ((false, r) :: rest) = []
    ∧ callCount (periodic_health_check steps)
        = (steps.takeWhile (fun x => x.1)).length
    ∧ callCount (periodic_rebalance steps)
        = (steps.takeWhile (fun x => x.1)).length := by
  refine ⟨?_, ?_, ?_, ?_, ?_, ?_⟩ <;>
    simp [periodic_health_check, periodic_rebalance, loopBody, callCount_loopBody]

/-- Claim C10: `CryptoManager.__init__` assigns `self.logger` only after
`_load_or_create_master_key` has run, so construction never changes the
filesystem, the only exception construction can raise from key loading is
`AttributeError`, and both the missing-file branch and the corrupt-key
branch — every branch that logs — end in that `AttributeError` instead of
their documented behavior; in particular a nonexistent key file fails
construction before any key is written. -/
theorem C10_logger_assignment_order (path : String) (key : Bytes) (pid : Nat)
    (env : IOEnv) (fs : FS) :
    (CryptoManager_init path key pid env fs).2 = fs
    ∧ (∀ e, (CryptoManager_init path key pid env fs).1 = Except.error e →
        ∃ m, e = PyError.attributeError m)
    ∧ (fs.read (normalizePath path) = none →
        (CryptoManager_init path key pid env fs).1
          = Except.error (PyError.attributeError noLoggerMsg))
    ∧ (∀ k, fs.read (normalizePath path) = some k → (k = [] ∨ k.length ≠ 32) →
        (CryptoManager_init path key pid env fs).1
          = Except.error (PyError.attributeError noLoggerMsg)) := by
  cases hr : fs.read (normalizePath path) with
  | some k =>
      by_cases hk : k = [] ∨ k.length ≠ 32
      · simp [CryptoManager_init, load_or_create_master_key, hr, hk, loggerCall]
      · simp [CryptoManager_init, load_or_create_master_key, hr, hk, loggerCall]
        push_neg at hk
        exact hk
  | none =>
      simp [CryptoManager_init, load_or_create_master_key, hr, loggerCall]

/-- Claim C10, witnessed at a concrete input: constructing on an empty
filesystem raises the AttributeError and leaves the filesystem
untouched. -/
theorem C10_logger_assignment_order_witness :
    (CryptoManager_init "master.key" key32 0 envOk ⟨[]⟩).1
        = Except.error (PyError.attributeError noLoggerMsg)
    ∧ (CryptoManager_init "master.key" key32 0 envOk ⟨[]⟩).2 = ⟨[]⟩ :=
  ⟨(C10_logger_assignment_order "master.key" key32 0 envOk ⟨[]⟩).2.2.1 rfl,
   (C10_logger_assignment_order "master.key" key32 0 envOk ⟨[]⟩).1⟩

end SYN
